import Mathlib

/-!
# hello-grpc: the greeting service (`golang/server/main.go`) and its drivers
(`golang/client/main.go`)

A shallow embedding of the Go handlers and drivers.

* Go strings are `String`, `+` on strings is `++`.
* A Go `error` value is `Option GoError` (`none` is `nil`); `io.EOF` is a
  constructor of its own so that `err == io.EOF` is a decidable test.
* A Go pointer that may be `nil` is an `Option`.
* A gRPC stream is a script: the results that the successive `Recv` and `Send`
  calls return.  A sequential handler can observe nothing else of its stream, so
  the script covers every behaviour of the peer.  What the code does with the
  stream is recorded as a trace of events, in program order.
* `log.Fatalf` ends the process (`os.Exit(1)`), an index out of range is a
  run-time panic; both are outcomes of their own, distinct from returning.
* `time.Sleep` only delays; it is left out.
-/

namespace HelloGrpc

/-! ## Data model -/

/-- Status codes of `google.golang.org/grpc/codes` used by the taxonomy. -/
inductive Code where
  | OK
  | Canceled
  | Internal
  | Unauthenticated
  deriving DecidableEq, Repr

/-- A non-nil Go `error`: `io.EOF`, a gRPC status error (`grpc.Errorf`), or any
other error value. -/
inductive GoError where
  | EOF
  | status (code : Code) (msg : String)
  | other (msg : String)
  deriving DecidableEq, Repr

/-- Modelled from the spec: the message `Greeter` of the generated package
`example/protos` (data model, `firstName`, optional `lastName`). -/
structure Greeter where
  FirstName : String
  LastName : String
  deriving DecidableEq, Repr

/-- Modelled from the spec: the generated message `GreetRequest`; its `Greeter`
field is a pointer and may be nil. -/
structure GreetRequest where
  Greeter : Option Greeter
  deriving DecidableEq, Repr

/-- Modelled from the spec: the generated message `GreetResponse`. -/
structure GreetResponse where
  Result : String
  deriving DecidableEq, Repr

/-- Modelled from the spec: the generated nil-safe getter `(*GreetRequest).GetGreeter`;
a nil request has a nil greeter. -/
def GetGreeter (req : Option GreetRequest) : Option Greeter :=
  match req with
  | none => none
  | some r => r.Greeter

/-- Modelled from the spec: the generated nil-safe getter `(*Greeter).GetFirstName`;
an absent field reads as the zero value, the empty string. -/
def GetFirstName (g : Option Greeter) : String :=
  match g with
  | none => ""
  | some g => g.FirstName

/-- Modelled from the spec: the generated nil-safe getter `(*GreetResponse).GetResult`. -/
def GetResult (res : Option GreetResponse) : String :=
  match res with
  | none => ""
  | some r => r.Result

/-- The type `metadata.MD`, a `map[string][]string`, as an association list. -/
abbrev MD := List (String × List String)

/-- Map indexing `meta[key]`: the stored slice, or the nil slice when the key is
absent (also on a nil map). -/
def MD.index (meta : MD) (key : String) : List String :=
  match meta.lookup key with
  | some vs => vs
  | none => []

/-- The call `metadata.Pairs(k, v)` for one pair: a map with the single value `v`
under `k`. -/
def metadataPairs (k v : String) : MD := [(k, [v])]

/-- What the interceptor reads of a `context.Context`: the incoming metadata,
if the context carries any. -/
abbrev Context := Option MD

/-- The call `metadata.FromIncomingContext(ctx)`: the metadata and the `ok` flag. -/
def FromIncomingContext (ctx : Context) : MD × Bool :=
  match ctx with
  | some md => (md, true)
  | none => ([], false)

/-- How a unary call ends on the server: the pair `(interface{}, error)` is
returned, or the goroutine panics. -/
inductive Outcome (α : Type) where
  | ret (resp : Option α) (err : Option GoError)
  | panic (msg : String)
  deriving DecidableEq, Repr

/-- A line written by `log.Printf("meta = %v", meta)`; the rendering of `%v` is
kept as the value printed. -/
inductive LogLine where
  | meta (md : MD)
  deriving DecidableEq, Repr

/-- A `grpc.UnaryHandler` acting on the handler-side state `σ`. -/
abbrev UnaryHandler (ρ α σ : Type) := Context → ρ → σ → Outcome α × σ

/-! ## `server/main.go` : the unary path -/

/-- The function `authInterceptor` (server/main.go 60-73).  `log` is the
process log, `s` the state that the handler may change. -/
def authInterceptor {ρ α σ : Type} (ctx : Context) (req : ρ) (handler : UnaryHandler ρ α σ)
    (log : List LogLine) (s : σ) : Outcome α × List LogLine × σ :=
  let (meta, ok) := FromIncomingContext ctx
  let log := log ++ [LogLine.meta meta]
  if !ok then
    (Outcome.ret none (some (GoError.status Code.Unauthenticated "missing context metadata")), log, s)
  else
    match meta.index "token" with
    | [] => (Outcome.panic "runtime error: index out of range [0] with length 0", log, s)
    | tok :: _ =>
      if tok ≠ "valid-token" then
        (Outcome.ret none (some (GoError.status Code.Unauthenticated "invalid token")), log, s)
      else
        let (out, s) := handler ctx req s
        (out, log, s)

/-- A line written to standard output by a handler; `%v` of a request is kept
as the request. -/
inductive PrintLine where
  | invokedWith (fn : String) (req : Option GreetRequest)
  | invokedStreaming (fn : String)
  deriving DecidableEq, Repr

/-- The method `Greet` (server/main.go 75-84); its state is standard output. -/
def Greet (_ctx : Context) (req : Option GreetRequest) (stdout : List PrintLine) :
    Outcome GreetResponse × List PrintLine :=
  let stdout := stdout ++ [PrintLine.invokedWith "Greet" req]
  let firstName := GetFirstName (GetGreeter req)
  let result := "Hello " ++ firstName
  let res : GreetResponse := { Result := result }
  (Outcome.ret (some res) none, stdout)

/-- A handler instrumented with a counter of its invocations. -/
def countCalls {ρ α σ : Type} (h : UnaryHandler ρ α σ) : UnaryHandler ρ α (σ × Nat) :=
  fun ctx req s => ((h ctx req s.1).1, ((h ctx req s.1).2, s.2 + 1))

/-- The request built by `doUnary` (client/main.go 64-69). -/
def doUnaryRequest : GreetRequest :=
  { Greeter := some { FirstName := "John", LastName := "Doe" } }

/-- The metadata attached by `doUnary` (client/main.go 72). -/
def doUnaryMetadata : MD := metadataPairs "token" "valid-token"

/-! ## Streams as scripts, runs as traces -/

/-- The pair `(msg, err)` returned by one `Recv` call. -/
structure RecvResult (α : Type) where
  msg : Option α
  err : Option GoError
  deriving DecidableEq, Repr

/-- A `Recv` that delivers the message `m`. -/
def RecvResult.ok {α : Type} (m : α) : RecvResult α := { msg := some m, err := none }

/-- A `Recv` that reports end-of-stream. -/
def RecvResult.eof {α : Type} : RecvResult α := { msg := none, err := some GoError.EOF }

/-- The result of the next send on a stream whose further sends return `sends`,
in order; once the script is used up a send succeeds. -/
def sendResult (sends : List (Option GoError)) : Option GoError :=
  match sends with
  | [] => none
  | e :: _ => e

/-- How a handler or driver stops: it returns (a handler returns an `error`, a
driver returns nothing, written `returned none`), `log.Fatalf` exits the
process, or it waits in `Recv` for ever. -/
inductive Exit where
  | returned (err : Option GoError)
  | exited
  | blocked
  deriving DecidableEq, Repr

/-- A run: what was done, in program order, and how it stopped. -/
structure Run (ε : Type) where
  trace : List ε
  exit : Exit
  deriving DecidableEq, Repr

/-- The run `r` preceded by the event `e`. -/
def Run.after {ε : Type} (e : ε) (r : Run ε) : Run ε :=
  { trace := e :: r.trace, exit := r.exit }

/-- What a streaming handler does: it prints, calls `Recv` (with the result it
got), `Send` or `SendAndClose` (with the message passed and the result it got),
or `log.Fatalf`. -/
inductive Event where
  | print (line : PrintLine)
  | recv (r : RecvResult GreetRequest)
  | send (res : GreetResponse) (err : Option GoError)
  | sendAndClose (res : GreetResponse) (err : Option GoError)
  | fatalf (format : String) (err : GoError)
  deriving DecidableEq, Repr

/-- The messages passed to `Send` in a trace, in order. -/
def sentMessages (t : List Event) : List GreetResponse :=
  t.filterMap (fun e => match e with
    | Event.send res _ => some res
    | _ => none)

/-- The messages passed to `Send` or `SendAndClose` in a trace, in order. -/
def allSent (t : List Event) : List GreetResponse :=
  t.filterMap (fun e => match e with
    | Event.send res _ => some res
    | Event.sendAndClose res _ => some res
    | _ => none)

/-- The number of `log.Fatalf` calls in a trace. -/
def fatalCount (t : List Event) : Nat :=
  t.countP (fun e => match e with
    | Event.fatalf _ _ => true
    | _ => false)

/-- The function `strconv.Itoa` on a non-negative `int`. -/
def Itoa (i : Nat) : String := Nat.repr i

/-! ## `server/main.go` : the streaming handlers -/

/-- The `for i := 0; i < 10; i++` loop of `GreetManyTimes` (server/main.go 90-97),
from the index `i`; `sends` are the results of the `Send` calls to come. The
result of `stream.Send` is dropped, as in the source. -/
def GreetManyTimes.loop (firstName : String) (i : Nat) (sends : List (Option GoError)) :
    Run Event :=
  if i < 10 then
    let result := "Hello " ++ firstName ++ " number " ++ Itoa i
    let res : GreetResponse := { Result := result }
    Run.after (Event.send res (sendResult sends))
      (GreetManyTimes.loop firstName (i + 1) sends.tail)
  else
    { trace := [], exit := Exit.returned none }
termination_by 10 - i

/-- The method `GreetManyTimes` (server/main.go 86-100). -/
def GreetManyTimes (req : Option GreetRequest) (sends : List (Option GoError)) : Run Event :=
  Run.after (Event.print (PrintLine.invokedWith "GreetManyTimes" req))
    (GreetManyTimes.loop (GetFirstName (GetGreeter req)) 0 sends)

/-- The `for` loop of `LongGreet` (server/main.go 105-121) with the accumulator
`result`; `recvs` are the results of the `Recv` calls to come and `sends` those
of the sends. -/
def LongGreet.loop (result : String) (sends : List (Option GoError)) :
    List (RecvResult GreetRequest) → Run Event
  | [] => { trace := [], exit := Exit.blocked }
  | r :: recvs =>
    Run.after (Event.recv r)
      (if r.err = some GoError.EOF then
        { trace := [Event.sendAndClose { Result := result } (sendResult sends)],
          exit := Exit.returned (sendResult sends) }
      else
        match r.err with
        | some e =>
          { trace := [Event.fatalf "Error while reading client stream: %v" e],
            exit := Exit.exited }
        | none =>
          let firstName := GetFirstName (GetGreeter r.msg)
          LongGreet.loop (result ++ ("Hello " ++ firstName ++ "! ")) sends recvs)

/-- The method `LongGreet` (server/main.go 102-122). -/
def LongGreet (recvs : List (RecvResult GreetRequest)) (sends : List (Option GoError)) :
    Run Event :=
  Run.after (Event.print (PrintLine.invokedStreaming "LongGreet")) (LongGreet.loop "" sends recvs)

/-- The `for` loop of `GreetEveryone` (server/main.go 127-149). -/
def GreetEveryone.loop : List (RecvResult GreetRequest) → List (Option GoError) → Run Event
  | [], _ => { trace := [], exit := Exit.blocked }
  | r :: recvs, sends =>
    Run.after (Event.recv r)
      (if r.err = some GoError.EOF then
        { trace := [], exit := Exit.returned none }
      else
        match r.err with
        | some e =>
          { trace := [Event.fatalf "Error while reading client stream: %v" e],
            exit := Exit.exited }
        | none =>
          let firstName := GetFirstName (GetGreeter r.msg)
          let result := "Hello " ++ firstName ++ "! "
          let sendErr := sendResult sends
          Run.after (Event.send { Result := result } sendErr)
            (match sendErr with
            | some e =>
              { trace := [Event.fatalf "Error while sending data to client: %v" e],
                exit := Exit.exited }
            | none => GreetEveryone.loop recvs sends.tail))

/-- The method `GreetEveryone` (server/main.go 124-150). -/
def GreetEveryone (recvs : List (RecvResult GreetRequest)) (sends : List (Option GoError)) :
    Run Event :=
  Run.after (Event.print (PrintLine.invokedStreaming "GreetEveryone"))
    (GreetEveryone.loop recvs sends)

/-- The greeting that `LongGreet` and `GreetEveryone` build for one request. -/
def greeting (req : GreetRequest) : String :=
  "Hello " ++ GetFirstName (GetGreeter (some req)) ++ "! "

/-- A request that carries only a first name. -/
def firstNameOnly (n : String) : GreetRequest :=
  { Greeter := some { FirstName := n, LastName := "" } }

/-- The slice `requests` of `doClientStreaming` (client/main.go 117-143) and of
`doBiDiStreaming` (client/main.go 176-202). -/
def requests : List GreetRequest :=
  [firstNameOnly "Stephane", firstNameOnly "John", firstNameOnly "Lucy", firstNameOnly "Mark",
    firstNameOnly "Piper"]


/-! ## `client/main.go` : the drivers -/

/-- What a driver writes or reports; `%v` of a request or of an error is kept as
the value. -/
inductive ClientEvent where
  | println (line : String)
  | printf (line : String)
  | logPrintf (line : String)
  | printfReq (format : String) (req : GreetRequest)
  | fatalf (format : String) (err : GoError)
  deriving DecidableEq, Repr

/-- The receive loop of `doServerStreaming` (client/main.go 98-111); `recvs` are
the results of the `resStream.Recv()` calls to come. -/
def doServerStreaming.loop : List (RecvResult GreetResponse) → Run ClientEvent
  | [] => { trace := [], exit := Exit.blocked }
  | r :: recvs =>
    if r.err = some GoError.EOF then
      { trace := [], exit := Exit.returned none }
    else
      match r.err with
      | some e =>
        { trace := [ClientEvent.fatalf "error while reading stream: %v" e], exit := Exit.exited }
      | none =>
        Run.after (ClientEvent.logPrintf ("Response from GreetManyTimes: " ++ GetResult r.msg))
          (doServerStreaming.loop recvs)

/-- The function `doServerStreaming` (client/main.go 83-112); `callErr` is the
error returned by `c.GreetManyTimes`. -/
def doServerStreaming (callErr : Option GoError) (recvs : List (RecvResult GreetResponse)) :
    Run ClientEvent :=
  Run.after (ClientEvent.println "Starting to do a Server Streaming RPC...")
    (match callErr with
    | some e =>
      { trace := [ClientEvent.fatalf "error while calling GreetManyTimes RPC: %v" e],
        exit := Exit.exited }
    | none => doServerStreaming.loop recvs)

/-- The loop of the receiving goroutine of `doBiDiStreaming` (client/main.go
220-230).  When it returns, the goroutine goes on to `close(waitc)`. -/
def doBiDiStreaming.receive : List (RecvResult GreetResponse) → Run ClientEvent
  | [] => { trace := [], exit := Exit.blocked }
  | r :: recvs =>
    if r.err = some GoError.EOF then
      { trace := [], exit := Exit.returned none }
    else
      match r.err with
      | some e =>
        { trace := [ClientEvent.fatalf "Error while receiving: %v" e], exit := Exit.exited }
      | none =>
        Run.after (ClientEvent.printf ("Received: " ++ GetResult r.msg ++ "\n"))
          (doBiDiStreaming.receive recvs)

/-- The state of one `doBiDiStreaming` call after the stream is created
(client/main.go 204-236): the position of the sending goroutine, of the
receiving goroutine and of the function itself. -/
structure BiDiState where
  /-- The index in `requests` of the next request of the sending goroutine. -/
  nextReq : Nat
  /-- The sending goroutine has called `stream.CloseSend()` and is finished. -/
  closedSend : Bool
  /-- The requests passed to `stream.Send`, in order. -/
  outbound : List GreetRequest
  /-- The results of the `stream.Recv()` calls to come. -/
  inbound : List (RecvResult GreetResponse)
  /-- The receiving goroutine has left its loop on `io.EOF`. -/
  sawEOF : Bool
  /-- The channel `waitc` is closed. -/
  waitc : Bool
  /-- The function `doBiDiStreaming` has returned. -/
  returned : Bool
  /-- A `log.Fatalf` has ended the process. -/
  exited : Bool
  /-- What was written, in order. -/
  out : List ClientEvent
  deriving DecidableEq, Repr

/-- The three activities of a `doBiDiStreaming` call. -/
inductive Task where
  | sender
  | receiver
  | main
  deriving DecidableEq, Repr

/-- The state in which the two goroutines are started (client/main.go 204). -/
def doBiDiStreaming.init (inbound : List (RecvResult GreetResponse)) : BiDiState :=
  { nextReq := 0, closedSend := false, outbound := [], inbound := inbound, sawEOF := false,
    waitc := false, returned := false, exited := false,
    out := [ClientEvent.println "Starting to do a BiDi Streaming RPC..."] }

/-- One step of the sending goroutine (client/main.go 207-215): the next
iteration of the `range` loop, or `stream.CloseSend()` after the last one. -/
def doBiDiStreaming.sendStep (s : BiDiState) : Option BiDiState :=
  if s.exited || s.closedSend then none
  else
    match requests.get? s.nextReq with
    | some req =>
      some { s with
        out := s.out ++ [ClientEvent.printfReq "Sending message: %v\n" req],
        outbound := s.outbound ++ [req],
        nextReq := s.nextReq + 1 }
    | none => some { s with closedSend := true }

/-- One step of the receiving goroutine (client/main.go 218-232): one iteration
of its loop, or `close(waitc)` once the loop is left.  With nothing to receive
the goroutine waits. -/
def doBiDiStreaming.recvStep (s : BiDiState) : Option BiDiState :=
  if s.exited || s.waitc then none
  else if s.sawEOF then some { s with waitc := true }
  else
    match s.inbound with
    | [] => none
    | r :: recvs =>
      if r.err = some GoError.EOF then
        some { s with inbound := recvs, sawEOF := true }
      else
        match r.err with
        | some e =>
          some { s with
            inbound := recvs,
            out := s.out ++ [ClientEvent.fatalf "Error while receiving: %v" e],
            exited := true }
        | none =>
          some { s with
            inbound := recvs,
            out := s.out ++ [ClientEvent.printf ("Received: " ++ GetResult r.msg ++ "\n")] }

/-- The step of the function itself (client/main.go 235): `<-waitc` passes once
the channel is closed, and the function returns. -/
def doBiDiStreaming.mainStep (s : BiDiState) : Option BiDiState :=
  if s.exited || s.returned then none
  else if s.waitc then some { s with returned := true }
  else none

/-- One step of the chosen activity, if it can move. -/
def doBiDiStreaming.step (t : Task) (s : BiDiState) : Option BiDiState :=
  match t with
  | Task.sender => doBiDiStreaming.sendStep s
  | Task.receiver => doBiDiStreaming.recvStep s
  | Task.main => doBiDiStreaming.mainStep s

/-- The state reached by a schedule, if each scheduled activity can move in turn. -/
def doBiDiStreaming.run : List Task → BiDiState → Option BiDiState
  | [], s => some s
  | t :: ts, s =>
    match doBiDiStreaming.step t s with
    | some s1 => doBiDiStreaming.run ts s1
    | none => none

/-- The send task has finished: all requests are sent and the outbound
direction is closed. -/
def BiDiState.sendFinished (s : BiDiState) : Bool :=
  s.closedSend && s.outbound == requests


/-- The events of `GreetEveryone` for the requests `reqs` when every send
succeeds: each request is received and answered before the next is received. -/
def exchanges : List GreetRequest → List Event
  | [] => []
  | r :: reqs =>
    Event.recv (RecvResult.ok r) :: Event.send { Result := greeting r } none :: exchanges reqs

/-- What holds of a `doBiDiStreaming` call at every moment: the function has
returned only if `waitc` is closed, and `waitc` is closed only if the receiving
goroutine has seen `io.EOF`. -/
def BiDiState.Consistent (s : BiDiState) : Prop :=
  (s.returned = true → s.waitc = true) ∧ (s.waitc = true → s.sawEOF = true)

/-! ## The auth interceptor -/

/-- With metadata on the context and a first `token` value, the interceptor does
what the comparison with `"valid-token"` says. -/
theorem authInterceptor_of_token {ρ α σ : Type} (md : MD) (tok : String) (rest : List String)
    (req : ρ) (handler : UnaryHandler ρ α σ) (log : List LogLine) (s : σ)
    (hmd : md.index "token" = tok :: rest) :
    authInterceptor (some md) req handler log s =
      if tok ≠ "valid-token" then
        (Outcome.ret none (some (GoError.status Code.Unauthenticated "invalid token")),
          log ++ [LogLine.meta md], s)
      else
        ((handler (some md) req s).1, log ++ [LogLine.meta md], (handler (some md) req s).2) := by
  simp only [authInterceptor, FromIncomingContext, hmd, Bool.not_true, Bool.false_eq_true,
    if_false]

/-- With metadata on the context and no value under `token` (no entry, or an
entry with an empty slice), `meta["token"][0]` is out of range: the interceptor
panics after logging, and the handler is not run. -/
theorem authInterceptor_of_no_token {ρ α σ : Type} (md : MD) (req : ρ)
    (handler : UnaryHandler ρ α σ) (log : List LogLine) (s : σ)
    (hmd : md.index "token" = []) :
    authInterceptor (some md) req handler log s =
      (Outcome.panic "runtime error: index out of range [0] with length 0",
        log ++ [LogLine.meta md], s) := by
  simp only [authInterceptor, FromIncomingContext, hmd, Bool.not_true, Bool.false_eq_true,
    if_false]

/-- Without metadata on the context the interceptor rejects the call with
UNAUTHENTICATED "missing context metadata", and the handler is not run. -/
theorem authInterceptor_of_no_metadata {ρ α σ : Type} (req : ρ)
    (handler : UnaryHandler ρ α σ) (log : List LogLine) (s : σ) :
    authInterceptor none req handler log s =
      (Outcome.ret none (some (GoError.status Code.Unauthenticated "missing context metadata")),
        log ++ [LogLine.meta []], s) := by
  rfl

/-- C1, evaluated on the code: metadata is present and has no `token` entry; the
expression `meta["token"][0]` indexes an empty slice and the interceptor panics,
it does not return an UNAUTHENTICATED status.  The same happens for an entry
with an empty value list. -/
theorem authInterceptor_no_token_panics :
    authInterceptor (some []) (some doUnaryRequest) Greet [] [] =
        (Outcome.panic "runtime error: index out of range [0] with length 0",
          [LogLine.meta []], [])
      ∧ authInterceptor (some [("token", [])]) (some doUnaryRequest) Greet [] [] =
        (Outcome.panic "runtime error: index out of range [0] with length 0",
          [LogLine.meta [("token", [])]], []) := by
  constructor <;> rfl

/-- C2: when the first value stored under `token` (the one the interceptor
reads) differs from `"valid-token"`, the interceptor returns a nil response
with the status error UNAUTHENTICATED "invalid token"; the handler-side state
is left as it was, and a handler that counts its invocations counts none. -/
theorem authInterceptor_invalid_token {ρ α σ : Type} (md : MD) (tok : String)
    (rest : List String) (req : ρ) (handler : UnaryHandler ρ α σ) (log : List LogLine) (s : σ)
    (hmd : md.index "token" = tok :: rest) (htok : tok ≠ "valid-token") :
    authInterceptor (some md) req handler log s =
        (Outcome.ret none (some (GoError.status Code.Unauthenticated "invalid token")),
          log ++ [LogLine.meta md], s)
      ∧ ∀ n : Nat, (authInterceptor (some md) req (countCalls handler) log (s, n)).2.2 = (s, n) := by
  constructor
  · rw [authInterceptor_of_token md tok rest req handler log s hmd, if_pos htok]
  · intro n
    rw [authInterceptor_of_token md tok rest req (countCalls handler) log (s, n) hmd, if_pos htok]

/-- C2 at the metadata `token = "guess"` and the handler `Greet`: rejected, and
nothing is printed by the handler. -/
theorem authInterceptor_invalid_token_witness :
    authInterceptor (some (metadataPairs "token" "guess")) (some doUnaryRequest) Greet [] [] =
        (Outcome.ret none (some (GoError.status Code.Unauthenticated "invalid token")),
          [] ++ [LogLine.meta (metadataPairs "token" "guess")], [])
      ∧ ∀ n : Nat,
        (authInterceptor (some (metadataPairs "token" "guess")) (some doUnaryRequest)
          (countCalls Greet) [] ([], n)).2.2 = ([], n) :=
  authInterceptor_invalid_token (metadataPairs "token" "guess") "guess" []
    (some doUnaryRequest) Greet [] [] (by decide) (by decide)

/-- C3: when the first value stored under `token` is `"valid-token"`, the
interceptor returns exactly what the handler returns (response and error) and
leaves the state the handler leaves; a handler that counts its invocations
counts one more; with `Greet` as the handler the result is the response
`"Hello " ++ first` with a nil error, whatever the last name. -/
theorem authInterceptor_valid_token {ρ α σ : Type} (md : MD) (rest : List String)
    (req : ρ) (handler : UnaryHandler ρ α σ) (log : List LogLine) (s : σ)
    (hmd : md.index "token" = "valid-token" :: rest) :
    authInterceptor (some md) req handler log s =
        ((handler (some md) req s).1, log ++ [LogLine.meta md], (handler (some md) req s).2)
      ∧ (∀ n : Nat, (authInterceptor (some md) req (countCalls handler) log (s, n)).2.2 =
          ((handler (some md) req s).2, n + 1))
      ∧ (∀ (r : Option GreetRequest) (out : List PrintLine),
          (authInterceptor (some md) r Greet log out).1 =
            Outcome.ret (some { Result := "Hello " ++ GetFirstName (GetGreeter r) }) none)
      ∧ (∀ (first last : String) (out : List PrintLine),
          (authInterceptor (some md)
              (some ({ Greeter := some { FirstName := first, LastName := last } } : GreetRequest))
              Greet log out).1 =
            Outcome.ret (some { Result := "Hello " ++ first }) none) := by
  refine ⟨?_, ?_, ?_, ?_⟩
  · rw [authInterceptor_of_token md _ rest req handler log s hmd]; simp
  · intro n
    rw [authInterceptor_of_token md _ rest req (countCalls handler) log (s, n) hmd]
    simp [countCalls]
  · intro r out
    rw [authInterceptor_of_token md _ rest r Greet log out hmd]; simp [Greet]
  · intro first last out
    rw [authInterceptor_of_token md _ rest _ Greet log out hmd]
    simp [Greet, GetFirstName, GetGreeter]

/-- C3 at the call made by `doUnary`: first name John, last name Doe, the
metadata `metadata.Pairs("token", "valid-token")`; the response is "Hello John". -/
theorem authInterceptor_valid_token_witness :
    MD.index doUnaryMetadata "token" = "valid-token" :: []
      ∧ (authInterceptor (some doUnaryMetadata) (some doUnaryRequest) Greet [] []).1 =
        Outcome.ret (some { Result := "Hello John" }) none :=
  ⟨by decide,
    (authInterceptor_valid_token doUnaryMetadata [] (some doUnaryRequest) Greet [] []
      (by decide)).2.2.2 "John" "Doe" []⟩


/-! ## Server streaming: `GreetManyTimes` -/

/-- One iteration of the loop of `GreetManyTimes`. -/
theorem GreetManyTimes.loop_step (n : String) (i : Nat) (sends : List (Option GoError))
    (h : i < 10) :
    GreetManyTimes.loop n i sends =
      Run.after (Event.send { Result := "Hello " ++ n ++ " number " ++ Itoa i } (sendResult sends))
        (GreetManyTimes.loop n (i + 1) sends.tail) := by
  rw [GreetManyTimes.loop, if_pos h]

/-- The loop of `GreetManyTimes` is left at index 10. -/
theorem GreetManyTimes.loop_done (n : String) (sends : List (Option GoError)) :
    GreetManyTimes.loop n 10 sends = { trace := [], exit := Exit.returned none } := by
  rw [GreetManyTimes.loop, if_neg (by decide)]

/-- The whole run of the loop of `GreetManyTimes`: ten sends, the i-th with the
result scripted for the i-th send, then `return nil`. -/
theorem GreetManyTimes.loop_zero (n : String) (sends : List (Option GoError)) :
    GreetManyTimes.loop n 0 sends =
      { trace := (List.range 10).map (fun i =>
          Event.send { Result := "Hello " ++ n ++ " number " ++ Itoa i }
            (sendResult (sends.drop i))),
        exit := Exit.returned none } := by
  rw [GreetManyTimes.loop_step n 0 _ (by decide), GreetManyTimes.loop_step n 1 _ (by decide),
    GreetManyTimes.loop_step n 2 _ (by decide), GreetManyTimes.loop_step n 3 _ (by decide),
    GreetManyTimes.loop_step n 4 _ (by decide), GreetManyTimes.loop_step n 5 _ (by decide),
    GreetManyTimes.loop_step n 6 _ (by decide), GreetManyTimes.loop_step n 7 _ (by decide),
    GreetManyTimes.loop_step n 8 _ (by decide), GreetManyTimes.loop_step n 9 _ (by decide),
    GreetManyTimes.loop_done]
  simp [Run.after, List.range, List.range.loop, ← List.drop_one, List.drop_drop]

/-- The decimal numerals of the ten loop indices. -/
theorem Itoa_digits :
    Itoa 0 = "0" ∧ Itoa 1 = "1" ∧ Itoa 2 = "2" ∧ Itoa 3 = "3" ∧ Itoa 4 = "4" ∧ Itoa 5 = "5" ∧
      Itoa 6 = "6" ∧ Itoa 7 = "7" ∧ Itoa 8 = "8" ∧ Itoa 9 = "9" := by
  decide

/-- C4: for every request (and whatever the sends return), the messages that
`GreetManyTimes` passes to `Send` are exactly the ten greetings
"Hello <first> number 0" to "Hello <first> number 9", in this order, and the
handler then returns nil. -/
theorem GreetManyTimes_ten_in_order (req : Option GreetRequest) (sends : List (Option GoError)) :
    sentMessages (GreetManyTimes req sends).trace =
        ["0", "1", "2", "3", "4", "5", "6", "7", "8", "9"].map (fun d =>
          ({ Result := "Hello " ++ GetFirstName (GetGreeter req) ++ " number " ++ d } :
            GreetResponse))
      ∧ sentMessages (GreetManyTimes req sends).trace =
        (List.range 10).map (fun i =>
          ({ Result := "Hello " ++ GetFirstName (GetGreeter req) ++ " number " ++ Itoa i } :
            GreetResponse))
      ∧ (sentMessages (GreetManyTimes req sends).trace).length = 10
      ∧ allSent (GreetManyTimes req sends).trace = sentMessages (GreetManyTimes req sends).trace
      ∧ (GreetManyTimes req sends).exit = Exit.returned none := by
  obtain ⟨h0, h1, h2, h3, h4, h5, h6, h7, h8, h9⟩ := Itoa_digits
  simp only [GreetManyTimes, GreetManyTimes.loop_zero]
  refine ⟨?_, ?_, ?_, ?_, ?_⟩ <;>
    simp [Run.after, sentMessages, allSent, List.range, List.range.loop, h0, h1, h2, h3, h4, h5,
      h6, h7, h8, h9]

/-- C10: whatever the ten `Send` calls return (`sends` is any script of results,
errors included), `GreetManyTimes` prints, calls `Send` ten times with the ten
greetings, getting the scripted results, never calls `log.Fatalf`, and returns
nil. -/
theorem GreetManyTimes_ignores_send_errors (req : Option GreetRequest)
    (sends : List (Option GoError)) :
    GreetManyTimes req sends =
        { trace := Event.print (PrintLine.invokedWith "GreetManyTimes" req) ::
            (List.range 10).map (fun i =>
              Event.send
                { Result := "Hello " ++ GetFirstName (GetGreeter req) ++ " number " ++ Itoa i }
                (sendResult (sends.drop i))),
          exit := Exit.returned none }
      ∧ (sentMessages (GreetManyTimes req sends).trace).length = 10
      ∧ fatalCount (GreetManyTimes req sends).trace = 0
      ∧ (GreetManyTimes req sends).exit = Exit.returned none := by
  simp only [GreetManyTimes, GreetManyTimes.loop_zero]
  refine ⟨?_, ?_, ?_, ?_⟩ <;>
    simp [Run.after, sentMessages, fatalCount, List.range, List.range.loop]


/-! ## Client streaming: `LongGreet` -/

/-- The loop of `LongGreet` over received requests: each is recorded and its
greeting appended to the accumulator; nothing is sent. -/
theorem LongGreet.loop_collects (reqs : List GreetRequest) (acc : String)
    (sends : List (Option GoError)) (rest : List (RecvResult GreetRequest)) :
    LongGreet.loop acc sends (reqs.map RecvResult.ok ++ rest) =
      { trace := reqs.map (fun r => Event.recv (RecvResult.ok r)) ++
          (LongGreet.loop (reqs.foldl (fun a r => a ++ greeting r) acc) sends rest).trace,
        exit := (LongGreet.loop (reqs.foldl (fun a r => a ++ greeting r) acc) sends rest).exit } := by
  induction reqs generalizing acc with
  | nil => simp
  | cons r reqs ih =>
    simp only [List.map_cons, List.cons_append, LongGreet.loop, RecvResult.ok, List.foldl_cons]
    simp only [RecvResult.ok] at ih
    simp [Run.after, ih, greeting]

/-- The accumulator of `LongGreet` started empty is the concatenation of the
greetings. -/
theorem foldl_greeting (reqs : List GreetRequest) :
    reqs.foldl (fun a r => a ++ greeting r) "" = String.join (reqs.map greeting) := by
  simp [String.join, List.foldl_map]

/-- C5: for the requests `reqs` followed by end-of-stream, `LongGreet` receives
them all, then calls `SendAndClose` once with the concatenation of the greetings
in receipt order, and returns what `SendAndClose` returned; it sends nothing
else, and nothing as long as end-of-stream has not come; with no request the
result is the empty string and (the send succeeding) the handler returns nil;
the five requests of `doClientStreaming` give the string of the specification. -/
theorem LongGreet_concatenates (reqs : List GreetRequest) (sends : List (Option GoError)) :
    LongGreet (reqs.map RecvResult.ok ++ [RecvResult.eof]) sends =
        { trace := Event.print (PrintLine.invokedStreaming "LongGreet") ::
            (reqs.map (fun r => Event.recv (RecvResult.ok r)) ++
              [Event.recv RecvResult.eof,
                Event.sendAndClose { Result := String.join (reqs.map greeting) }
                  (sendResult sends)]),
          exit := Exit.returned (sendResult sends) }
      ∧ allSent (LongGreet (reqs.map RecvResult.ok ++ [RecvResult.eof]) sends).trace =
        [{ Result := String.join (reqs.map greeting) }]
      ∧ allSent (LongGreet (reqs.map RecvResult.ok) sends).trace = []
      ∧ (LongGreet (reqs.map RecvResult.ok ++ [RecvResult.eof]) []).exit = Exit.returned none
      ∧ LongGreet [RecvResult.eof] [] =
        { trace := [Event.print (PrintLine.invokedStreaming "LongGreet"),
            Event.recv RecvResult.eof, Event.sendAndClose { Result := "" } none],
          exit := Exit.returned none }
      ∧ (∀ names : List String,
          allSent (LongGreet ((names.map firstNameOnly).map RecvResult.ok ++ [RecvResult.eof])
              sends).trace =
            [{ Result := String.join (names.map (fun n => "Hello " ++ n ++ "! ")) }])
      ∧ allSent (LongGreet (requests.map RecvResult.ok ++ [RecvResult.eof]) []).trace =
        [{ Result := "Hello Stephane! Hello John! Hello Lucy! Hello Mark! Hello Piper! " }] := by
  have key : ∀ (rs : List GreetRequest) (ss : List (Option GoError)),
      LongGreet (rs.map RecvResult.ok ++ [RecvResult.eof]) ss =
        { trace := Event.print (PrintLine.invokedStreaming "LongGreet") ::
            (rs.map (fun r => Event.recv (RecvResult.ok r)) ++
              [Event.recv RecvResult.eof,
                Event.sendAndClose { Result := String.join (rs.map greeting) }
                  (sendResult ss)]),
          exit := Exit.returned (sendResult ss) } := by
    intro rs ss
    simp [LongGreet, LongGreet.loop_collects, LongGreet.loop, foldl_greeting, Run.after,
      RecvResult.eof]
  have sent : ∀ rs : List GreetRequest,
      allSent (LongGreet (rs.map RecvResult.ok ++ [RecvResult.eof]) sends).trace =
        [{ Result := String.join (rs.map greeting) }] := by
    intro rs
    rw [key rs sends]
    simp [allSent, List.filterMap_append]
  refine ⟨key reqs sends, sent reqs, ?_, ?_, by decide, ?_, by decide⟩
  · have h := LongGreet.loop_collects reqs "" sends []
    simp only [List.append_nil] at h
    simp [LongGreet, h, LongGreet.loop, Run.after, allSent]
  · rw [key reqs []]
    rfl
  · intro names
    rw [sent (names.map firstNameOnly)]
    simp [List.map_map, Function.comp_def, greeting, firstNameOnly, GetFirstName, GetGreeter]


/-! ## Bidirectional streaming: `GreetEveryone` -/

/-- On a stream whose sends all succeed, the next send succeeds. -/
theorem sendResult_of_all_none (sends : List (Option GoError)) (hs : ∀ e ∈ sends, e = none) :
    sendResult sends = none := by
  cases sends with
  | nil => rfl
  | cons e es => exact hs e (List.mem_cons_self e es)

/-- The loop of `GreetEveryone` over received requests when the sends succeed:
receive and answer alternate. -/
theorem GreetEveryone.loop_alternates (reqs : List GreetRequest) (sends : List (Option GoError))
    (hs : ∀ e ∈ sends, e = none) (rest : List (RecvResult GreetRequest)) :
    GreetEveryone.loop (reqs.map RecvResult.ok ++ rest) sends =
      { trace := exchanges reqs ++ (GreetEveryone.loop rest (sends.drop reqs.length)).trace,
        exit := (GreetEveryone.loop rest (sends.drop reqs.length)).exit } := by
  induction reqs generalizing sends with
  | nil => simp [exchanges]
  | cons r reqs ih =>
    have htail : ∀ e ∈ sends.tail, e = none := fun e he => hs e (List.mem_of_mem_tail he)
    have hdrop : List.drop (reqs.length + 1) sends = List.drop reqs.length sends.tail := by
      cases sends <;> simp
    simp only [List.map_cons, List.cons_append, GreetEveryone.loop, List.length_cons,
      sendResult_of_all_none sends hs, exchanges, hdrop, List.append_eq]
    rw [ih sends.tail htail]
    simp [Run.after, RecvResult.ok, greeting]

/-- The messages sent in the alternation are the greetings of the requests. -/
theorem sentMessages_exchanges (reqs : List GreetRequest) :
    sentMessages (exchanges reqs) = reqs.map (fun r => ({ Result := greeting r } : GreetResponse)) := by
  induction reqs with
  | nil => rfl
  | cons r reqs ih =>
    simp only [sentMessages] at ih
    simp [exchanges, sentMessages, ih]

/-- C6: for the requests `reqs` followed by end-of-stream, the sends succeeding,
`GreetEveryone` receives the first request, sends its greeting, receives the
second, sends its greeting, and so on, then receives end-of-stream and returns
nil with nothing more sent; it sends as many responses as there are requests,
the i-th being "Hello <first_i>! "; and after the first `j` requests alone it
has sent exactly the first `j` responses and waits for the next request. -/
theorem GreetEveryone_interleaved (reqs : List GreetRequest) (sends : List (Option GoError))
    (hs : ∀ e ∈ sends, e = none) :
    GreetEveryone (reqs.map RecvResult.ok ++ [RecvResult.eof]) sends =
        { trace := Event.print (PrintLine.invokedStreaming "GreetEveryone") ::
            (exchanges reqs ++ [Event.recv RecvResult.eof]),
          exit := Exit.returned none }
      ∧ sentMessages (GreetEveryone (reqs.map RecvResult.ok ++ [RecvResult.eof]) sends).trace =
        reqs.map (fun r =>
          ({ Result := "Hello " ++ GetFirstName (GetGreeter (some r)) ++ "! " } : GreetResponse))
      ∧ (sentMessages (GreetEveryone (reqs.map RecvResult.ok ++ [RecvResult.eof]) sends).trace).length
        = reqs.length
      ∧ ∀ j : Nat,
        GreetEveryone ((reqs.take j).map RecvResult.ok) sends =
            { trace := Event.print (PrintLine.invokedStreaming "GreetEveryone") ::
                exchanges (reqs.take j),
              exit := Exit.blocked }
          ∧ sentMessages (GreetEveryone ((reqs.take j).map RecvResult.ok) sends).trace =
            (reqs.take j).map (fun r => ({ Result := greeting r } : GreetResponse)) := by
  have full : GreetEveryone (reqs.map RecvResult.ok ++ [RecvResult.eof]) sends =
      { trace := Event.print (PrintLine.invokedStreaming "GreetEveryone") ::
          (exchanges reqs ++ [Event.recv RecvResult.eof]),
        exit := Exit.returned none } := by
    rw [GreetEveryone, GreetEveryone.loop_alternates reqs sends hs]
    simp [GreetEveryone.loop, Run.after, RecvResult.eof]
  have part : ∀ rs : List GreetRequest, GreetEveryone (rs.map RecvResult.ok) sends =
      { trace := Event.print (PrintLine.invokedStreaming "GreetEveryone") :: exchanges rs,
        exit := Exit.blocked } := by
    intro rs
    have h := GreetEveryone.loop_alternates rs sends hs []
    simp only [List.append_nil] at h
    rw [GreetEveryone, h]
    simp [GreetEveryone.loop, Run.after]
  have sentFull : sentMessages (GreetEveryone (reqs.map RecvResult.ok ++ [RecvResult.eof]) sends).trace
      = reqs.map (fun r => ({ Result := greeting r } : GreetResponse)) := by
    rw [full, ← sentMessages_exchanges]
    simp [sentMessages, List.filterMap_append]
  refine ⟨full, ?_, ?_, ?_⟩
  · rw [sentFull]; rfl
  · rw [sentFull, List.length_map]
  · intro j
    refine ⟨part _, ?_⟩
    rw [part, ← sentMessages_exchanges]
    simp [sentMessages]

/-- C6 at the five requests of `doBiDiStreaming` on a stream whose sends succeed. -/
theorem GreetEveryone_interleaved_witness :
    sentMessages (GreetEveryone (requests.map RecvResult.ok ++ [RecvResult.eof])
        [none, none, none, none, none]).trace =
      [{ Result := "Hello Stephane! " }, { Result := "Hello John! " }, { Result := "Hello Lucy! " },
        { Result := "Hello Mark! " }, { Result := "Hello Piper! " }] :=
  (GreetEveryone_interleaved requests [none, none, none, none, none] (by decide)).2.1

/-! ## Failures on a stream -/

/-- C7, evaluated on the code: a `Recv` that fails with an error other than
end-of-stream makes `GreetEveryone` and `LongGreet` call `log.Fatalf`, which
ends the handler process and returns no status; so does a failed `Send` in
`GreetEveryone`.  Only a failed `SendAndClose` in `LongGreet` is returned as the
status of the call. -/
theorem stream_failure_exits_process :
    GreetEveryone [{ msg := none, err := some (GoError.status Code.Canceled "context canceled") }] []
        = { trace := [Event.print (PrintLine.invokedStreaming "GreetEveryone"),
              Event.recv { msg := none, err := some (GoError.status Code.Canceled "context canceled") },
              Event.fatalf "Error while reading client stream: %v"
                (GoError.status Code.Canceled "context canceled")],
            exit := Exit.exited }
      ∧ LongGreet [{ msg := none, err := some (GoError.status Code.Canceled "context canceled") }] []
        = { trace := [Event.print (PrintLine.invokedStreaming "LongGreet"),
              Event.recv { msg := none, err := some (GoError.status Code.Canceled "context canceled") },
              Event.fatalf "Error while reading client stream: %v"
                (GoError.status Code.Canceled "context canceled")],
            exit := Exit.exited }
      ∧ GreetEveryone [RecvResult.ok (firstNameOnly "John")]
          [some (GoError.other "transport is closing")]
        = { trace := [Event.print (PrintLine.invokedStreaming "GreetEveryone"),
              Event.recv (RecvResult.ok (firstNameOnly "John")),
              Event.send { Result := "Hello John! " } (some (GoError.other "transport is closing")),
              Event.fatalf "Error while sending data to client: %v"
                (GoError.other "transport is closing")],
            exit := Exit.exited }
      ∧ (LongGreet [RecvResult.eof] [some (GoError.other "transport is closing")]).exit
        = Exit.returned (some (GoError.other "transport is closing")) := by
  decide


/-! ## The receive loops of the drivers -/

/-- The receive loop of `doServerStreaming` over delivered responses: each is
logged once, in order. -/
theorem doServerStreaming.loop_responses (resps : List GreetResponse)
    (rest : List (RecvResult GreetResponse)) :
    doServerStreaming.loop (resps.map RecvResult.ok ++ rest) =
      { trace := resps.map (fun r =>
            ClientEvent.logPrintf ("Response from GreetManyTimes: " ++ r.Result)) ++
          (doServerStreaming.loop rest).trace,
        exit := (doServerStreaming.loop rest).exit } := by
  induction resps with
  | nil => simp
  | cons r resps ih =>
    simp only [List.map_cons, List.cons_append, doServerStreaming.loop, List.append_eq]
    rw [ih]
    simp [Run.after, RecvResult.ok, GetResult]

/-- The receive loop of `doBiDiStreaming` over delivered responses: each is
printed once, in order. -/
theorem doBiDiStreaming.receive_responses (resps : List GreetResponse)
    (rest : List (RecvResult GreetResponse)) :
    doBiDiStreaming.receive (resps.map RecvResult.ok ++ rest) =
      { trace := resps.map (fun r => ClientEvent.printf ("Received: " ++ r.Result ++ "\n")) ++
          (doBiDiStreaming.receive rest).trace,
        exit := (doBiDiStreaming.receive rest).exit } := by
  induction resps with
  | nil => simp
  | cons r resps ih =>
    simp only [List.map_cons, List.cons_append, doBiDiStreaming.receive, List.append_eq]
    rw [ih]
    simp [Run.after, RecvResult.ok, GetResult]

/-- The receive loop of `doServerStreaming` reaches `log.Fatalf` only on a
`Recv` error other than `io.EOF`. -/
theorem doServerStreaming.loop_exited (recvs : List (RecvResult GreetResponse))
    (h : (doServerStreaming.loop recvs).exit = Exit.exited) :
    ∃ r ∈ recvs, ∃ e, r.err = some e ∧ e ≠ GoError.EOF := by
  induction recvs with
  | nil => simp [doServerStreaming.loop] at h
  | cons r recvs ih =>
    by_cases heof : r.err = some GoError.EOF
    · simp [doServerStreaming.loop, heof] at h
    · cases herr : r.err with
      | some e =>
        exact ⟨r, List.mem_cons_self r recvs, e, herr, fun he => heof (by rw [herr, he])⟩
      | none =>
        simp only [doServerStreaming.loop, herr, Run.after] at h
        obtain ⟨r1, hmem, e, he, hne⟩ := ih (by simpa using h)
        exact ⟨r1, List.mem_cons_of_mem r hmem, e, he, hne⟩

/-- The receive loop of `doBiDiStreaming` reaches `log.Fatalf` only on a `Recv`
error other than `io.EOF`. -/
theorem doBiDiStreaming.receive_exited (recvs : List (RecvResult GreetResponse))
    (h : (doBiDiStreaming.receive recvs).exit = Exit.exited) :
    ∃ r ∈ recvs, ∃ e, r.err = some e ∧ e ≠ GoError.EOF := by
  induction recvs with
  | nil => simp [doBiDiStreaming.receive] at h
  | cons r recvs ih =>
    by_cases heof : r.err = some GoError.EOF
    · simp [doBiDiStreaming.receive, heof] at h
    · cases herr : r.err with
      | some e =>
        exact ⟨r, List.mem_cons_self r recvs, e, herr, fun he => heof (by rw [herr, he])⟩
      | none =>
        simp only [doBiDiStreaming.receive, herr, Run.after] at h
        obtain ⟨r1, hmem, e, he, hne⟩ := ih (by simpa using h)
        exact ⟨r1, List.mem_cons_of_mem r hmem, e, he, hne⟩

/-- C8: when the stream delivers the responses `resps` and then end-of-stream,
the receive loop of `doServerStreaming` logs each response once, in arrival
order, and ends normally, with no `log.Fatalf`; so does the receive loop of
`doBiDiStreaming`, printing them; and either loop ends in `log.Fatalf` only if
some `Recv` returned an error other than `io.EOF`. -/
theorem receive_loops_end_on_eof (resps : List GreetResponse)
    (rest : List (RecvResult GreetResponse)) :
    doServerStreaming.loop (resps.map RecvResult.ok ++ RecvResult.eof :: rest) =
        { trace := resps.map (fun r =>
            ClientEvent.logPrintf ("Response from GreetManyTimes: " ++ r.Result)),
          exit := Exit.returned none }
      ∧ doBiDiStreaming.receive (resps.map RecvResult.ok ++ RecvResult.eof :: rest) =
        { trace := resps.map (fun r => ClientEvent.printf ("Received: " ++ r.Result ++ "\n")),
          exit := Exit.returned none }
      ∧ doServerStreaming none (resps.map RecvResult.ok ++ [RecvResult.eof]) =
        { trace := ClientEvent.println "Starting to do a Server Streaming RPC..." ::
            resps.map (fun r =>
              ClientEvent.logPrintf ("Response from GreetManyTimes: " ++ r.Result)),
          exit := Exit.returned none }
      ∧ (∀ recvs : List (RecvResult GreetResponse),
          (doServerStreaming.loop recvs).exit = Exit.exited →
            ∃ r ∈ recvs, ∃ e, r.err = some e ∧ e ≠ GoError.EOF)
      ∧ (∀ recvs : List (RecvResult GreetResponse),
          (doBiDiStreaming.receive recvs).exit = Exit.exited →
            ∃ r ∈ recvs, ∃ e, r.err = some e ∧ e ≠ GoError.EOF) := by
  refine ⟨?_, ?_, ?_, doServerStreaming.loop_exited, doBiDiStreaming.receive_exited⟩
  · rw [doServerStreaming.loop_responses]
    simp [doServerStreaming.loop, RecvResult.eof]
  · rw [doBiDiStreaming.receive_responses]
    simp [doBiDiStreaming.receive, RecvResult.eof]
  · rw [doServerStreaming, doServerStreaming.loop_responses]
    simp [doServerStreaming.loop, RecvResult.eof, Run.after]

/-- C8 at two responses followed by end-of-stream. -/
theorem receive_loops_end_on_eof_witness :
    doServerStreaming.loop
        [RecvResult.ok { Result := "Hello John number 0" },
          RecvResult.ok { Result := "Hello John number 1" }, RecvResult.eof] =
      { trace := [ClientEvent.logPrintf "Response from GreetManyTimes: Hello John number 0",
          ClientEvent.logPrintf "Response from GreetManyTimes: Hello John number 1"],
        exit := Exit.returned none } :=
  (receive_loops_end_on_eof [{ Result := "Hello John number 0" }, { Result := "Hello John number 1" }]
    []).1

/-! ## The two goroutines of `doBiDiStreaming` -/

/-- Each step keeps the order return, close of `waitc`, end-of-stream. -/
theorem doBiDiStreaming.step_consistent (t : Task) (s s1 : BiDiState)
    (h : doBiDiStreaming.step t s = some s1) (hc : s.Consistent) : s1.Consistent := by
  obtain ⟨hrw, hwe⟩ := hc
  cases t with
  | sender =>
    simp only [doBiDiStreaming.step, doBiDiStreaming.sendStep] at h
    split at h
    · simp at h
    · split at h <;> (simp only [Option.some.injEq] at h; subst h; exact ⟨hrw, hwe⟩)
  | receiver =>
    simp only [doBiDiStreaming.step, doBiDiStreaming.recvStep] at h
    split at h
    · simp at h
    · rename_i hg
      simp only [Bool.or_eq_true, not_or, Bool.not_eq_true] at hg
      split at h
      · rename_i he
        simp only [Option.some.injEq] at h; subst h
        exact ⟨fun _ => rfl, fun _ => he⟩
      · split at h
        · simp at h
        · split at h
          · simp only [Option.some.injEq] at h; subst h
            refine ⟨hrw, fun hw => ?_⟩
            simp [BiDiState.Consistent] at hw ⊢
          · split at h <;>
              (simp only [Option.some.injEq] at h; subst h; exact ⟨hrw, hwe⟩)
  | main =>
    simp only [doBiDiStreaming.step, doBiDiStreaming.mainStep] at h
    split at h
    · simp at h
    · split at h
      · rename_i hw
        simp only [Option.some.injEq] at h; subst h
        exact ⟨fun _ => hw, hwe⟩
      · simp at h

/-- Along every schedule, `doBiDiStreaming` has returned only after its
receiving goroutine has seen `io.EOF` and closed `waitc`. -/
theorem doBiDiStreaming.returned_after_eof (ts : List Task)
    (inbound : List (RecvResult GreetResponse)) (s : BiDiState)
    (h : doBiDiStreaming.run ts (doBiDiStreaming.init inbound) = some s)
    (hr : s.returned = true) : s.waitc = true ∧ s.sawEOF = true := by
  have gen : ∀ (ts : List Task) (s0 s : BiDiState), s0.Consistent →
      doBiDiStreaming.run ts s0 = some s → s.Consistent := by
    intro ts
    induction ts with
    | nil =>
      intro s0 s hc h
      simp only [doBiDiStreaming.run, Option.some.injEq] at h
      exact h ▸ hc
    | cons t ts ih =>
      intro s0 s hc h
      simp only [doBiDiStreaming.run] at h
      cases hstep : doBiDiStreaming.step t s0 with
      | none => simp [hstep] at h
      | some s1 =>
        simp only [hstep] at h
        exact ih s1 s (doBiDiStreaming.step_consistent t s0 s1 hstep hc) h
  have hc := gen ts _ s (by simp [BiDiState.Consistent, doBiDiStreaming.init]) h
  exact ⟨hc.1 hr, hc.2 (hc.1 hr)⟩

/-- C9, evaluated on the code: when the peer ends the call at once (the first
`Recv` returns `io.EOF`), the receiving goroutine leaves its loop and closes
`waitc`, and `doBiDiStreaming` returns while the sending goroutine has sent
none of the five requests and has not called `CloseSend`: only the receiving
goroutine is waited for. -/
theorem doBiDiStreaming_returns_while_sending :
    doBiDiStreaming.run [Task.receiver, Task.receiver, Task.main]
        (doBiDiStreaming.init [RecvResult.eof]) =
      some { nextReq := 0, closedSend := false, outbound := [], inbound := [], sawEOF := true,
             waitc := true, returned := true, exited := false,
             out := [ClientEvent.println "Starting to do a BiDi Streaming RPC..."] }
      ∧ (doBiDiStreaming.run [Task.receiver, Task.receiver, Task.main]
          (doBiDiStreaming.init [RecvResult.eof])).map BiDiState.sendFinished = some false := by
  decide


end HelloGrpc
